import Mathlib

/-!
# Verification of the k8sagents command-intent pipeline

Shallow embedding of `src/k8s.py` (guardrail validators, manifest
generators, operation executor, intent routing and dispatching tools),
with theorems settling the frozen claims about the specification.

Modelling conventions:
* Python strings are Lean `String`s; character-level operations
  (`str.lower`, `str.strip`, substring containment) are modelled over
  `String.toList`, ASCII-faithfully (all strings relevant to the claims
  are ASCII).
* Python exceptions become an explicit `PyExc` sum carrying the message
  text of the corresponding `raise` site; `raise` becomes `Except.error`.
* The two regular expressions used by the validators are modelled both
  as their regular language (the reading used by the specification) and
  as Python `re.match` semantics, where a pattern ending in `$` also
  matches when a single trailing newline follows the matched text.
* Side effects of the executor (temporary manifest files, invocations of
  the external `kubectl` process) are explicit state passing over a
  `World` record, with the behaviour of the external process supplied by
  an `ExecEnv` oracle.
-/

namespace K8s

/-! ## Python string primitives -/

/-- ASCII case folding of one character, as done by `str.lower` on the
ASCII inputs relevant here. -/
def pyToLowerChar (c : Char) : Char :=
  if 65 ≤ c.toNat ∧ c.toNat ≤ 90 then Char.ofNat (c.toNat + 32) else c

/-- Model of Python `s.lower()`. -/
def str_lower (s : String) : String :=
  String.mk (s.toList.map pyToLowerChar)

/-- The ASCII whitespace characters removed by Python `str.strip()`. -/
def pyIsSpace (c : Char) : Bool :=
  c == ' ' || c == '\t' || c == '\n' || c == '\r' || c == '\x0b' || c == '\x0c'

/-- Model of Python `s.strip()`. -/
def str_strip (s : String) : String :=
  String.mk (((s.toList.dropWhile pyIsSpace).reverse.dropWhile pyIsSpace).reverse)

/-- Model of the Python containment test `pat in hay` on strings. -/
def containsSub (hay pat : String) : Bool :=
  hay.toList.tails.any (fun t => pat.toList.isPrefixOf t)

/-! ## The two validator regular expressions

`validate_name` uses `^[a-z0-9]([-a-z0-9]*[a-z0-9])?$`;
`validate_image` uses the pattern whose repository part is one or more
characters from {letters, digits, dot, underscore, slash, hyphen},
optionally followed by a colon and one or more characters from
{letters, digits, dot, underscore, hyphen}, anchored as a full match.

`matchesNameLang` / `matchesImageLang` are membership in the regular
language of the pattern.  `pyMatchName` / `pyMatchImage` are the result
of Python `re.match(pattern, s)`: since both patterns are anchored with
`^...$`, `re.match` succeeds on `s` exactly when `s` is in the language,
or when `s` ends in a newline and everything before that final newline
is in the language (`$` also matches just before a trailing newline). -/

/-- `[a-z0-9]`. -/
def isNameAlnum (c : Char) : Bool :=
  (97 ≤ c.toNat && c.toNat ≤ 122) || (48 ≤ c.toNat && c.toNat ≤ 57)

/-- `[-a-z0-9]`. -/
def isNameChar (c : Char) : Bool :=
  isNameAlnum c || c == '-'

/-- Language of `^[a-z0-9]([-a-z0-9]*[a-z0-9])?$`: a nonempty word over
`[-a-z0-9]` whose first and last characters are in `[a-z0-9]`. -/
def matchesNameLangL (l : List Char) : Bool :=
  !l.isEmpty && isNameAlnum (l.headD ' ') && isNameAlnum (l.getLastD ' ')
    && l.all isNameChar

/-- The specification reading of "matches `^[a-z0-9]([-a-z0-9]*[a-z0-9])?$`":
membership in the regular language of the pattern. -/
def matchesNameLang (s : String) : Bool :=
  matchesNameLangL s.toList

/-- Python `re.match(r"^[a-z0-9]([-a-z0-9]*[a-z0-9])?$", s) is not None`:
the language test, relaxed by `$` accepting one trailing newline. -/
def pyMatchName (s : String) : Bool :=
  matchesNameLangL s.toList
    || (s.toList.getLastD ' ' == '\n' && matchesNameLangL s.toList.dropLast)

/-- Repository-part character class of the image pattern: letters,
digits, dot, underscore, slash, hyphen. -/
def isImageRepoChar (c : Char) : Bool :=
  c.isAlpha || c.isDigit || c == '.' || c == '_' || c == '/' || c == '-'

/-- `[a-zA-Z0-9._-]`, the tag part of the image pattern. -/
def isImageTagChar (c : Char) : Bool :=
  c.isAlpha || c.isDigit || c == '.' || c == '_' || c == '-'

/-- Language of the image pattern: a nonempty repository word, optionally
followed by `:` and a nonempty tag word. -/
def matchesImageLangL (l : List Char) : Bool :=
  let repo := l.takeWhile (fun c => c != ':')
  let rest := l.dropWhile (fun c => c != ':')
  match rest with
  | [] => !repo.isEmpty && repo.all isImageRepoChar
  | _ :: tag =>
      !repo.isEmpty && repo.all isImageRepoChar
        && !tag.isEmpty && tag.all isImageTagChar

/-- Python `re.match` for the image pattern (with the trailing-newline
relaxation of `$`). -/
def pyMatchImage (s : String) : Bool :=
  matchesImageLangL s.toList
    || (s.toList.getLastD ' ' == '\n' && matchesImageLangL s.toList.dropLast)

/-! ## Configuration and exceptions -/

/-- `K8sConfig` (the fields the pipeline reads; the model/temperature/token
knobs are unused by the pipeline and omitted).  `__post_init__` replaces a
`None` image/namespace list by the defaults below, so the lists are
modelled directly. -/
structure K8sConfig where
  «namespace» : String := "default"
  timeout : Nat := 30
  max_replicas : Int := 10
  allowed_images : List String :=
    ["nginx", "httpd", "redis", "postgres", "mysql", "mongo"]
  forbidden_namespaces : List String :=
    ["kube-system", "kube-public", "kube-node-lease"]
deriving Repr, DecidableEq

/-- The configuration produced by the dataclass defaults / `__post_init__`. -/
def defaultConfig : K8sConfig := {}

/-- Python exceptions raised by the pipeline: the `K8sError` subclasses
(`ValidationError`, `SecurityError`, `ResourceError`) with their message
text, plus the library exceptions that can escape
(`json.JSONDecodeError`, attribute/type errors on non-dict JSON). -/
inductive PyExc where
  | validationError (msg : String)
  | securityError (msg : String)
  | resourceError (msg : String)
  | jsonDecodeError
  | attributeError
  | typeError
deriving Repr, DecidableEq

/-- Python `str(e)` for the exceptions above (the `K8sError` subclasses
render as their message). -/
def pyExcStr : PyExc → String
  | .validationError m => m
  | .securityError m => m
  | .resourceError m => m
  | .jsonDecodeError => "Expecting value: line 1 column 1 (char 0)"
  | .attributeError => "AttributeError"
  | .typeError => "TypeError"

/-- Python `repr` of a list of strings, as interpolated into the
allow-list error message. -/
def pyListRepr (l : List String) : String :=
  "[" ++ ", ".intercalate (l.map (fun s => "\x27" ++ s ++ "\x27")) ++ "]"

/-! ## Guardrail validators (`InputValidator`) -/

/-- `InputValidator.validate_name`.  Checks run on the raw string in
source order (empty, regex, length); the returned value is
`name.lower().strip()`. -/
def validate_name (name : String) : Except PyExc String :=
  if name = "" then
    .error (.validationError "Name cannot be empty")
  else if !pyMatchName name then
    .error (.validationError "Name must be lowercase alphanumeric with hyphens only")
  else if name.length > 63 then
    .error (.validationError "Name must be 63 characters or less")
  else
    .ok (str_strip (str_lower name))

/-- `InputValidator.validate_image`.  The allow-list test is skipped when
`allowed_images` is empty (Python truthiness of the list), and checks
containment of each allowed entry in `image.lower()`. -/
def validate_image (cfg : K8sConfig) (image : String) : Except PyExc String :=
  if image = "" then
    .error (.validationError "Image cannot be empty")
  else if !cfg.allowed_images.isEmpty
      && !cfg.allowed_images.any (fun allowed => containsSub (str_lower image) allowed) then
    .error (.validationError ("Image not in allowed list: " ++ pyListRepr cfg.allowed_images))
  else if !pyMatchImage image then
    .error (.validationError "Invalid image format")
  else
    .ok (str_strip image)

/-- `InputValidator.validate_replicas` (the argument is an `int`; the
`isinstance` check is carried by the type). -/
def validate_replicas (cfg : K8sConfig) (replicas : Int) : Except PyExc Int :=
  if replicas < 0 then
    .error (.validationError "Replicas must be a non-negative integer")
  else if replicas > cfg.max_replicas then
    .error (.validationError ("Replicas cannot exceed " ++ toString cfg.max_replicas))
  else
    .ok replicas

/-- `InputValidator.validate_namespace`: empty input is replaced by the
configured default, then an exact membership test against
`forbidden_namespaces` raises `SecurityError`, then `validate_name`. -/
def validate_namespace (cfg : K8sConfig) («namespace» : String) : Except PyExc String :=
  let ns := if «namespace» = "" then cfg.«namespace» else «namespace»
  if cfg.forbidden_namespaces.contains ns then
    .error (.securityError ("Namespace \x27" ++ ns ++ "\x27 is forbidden"))
  else
    validate_name ns

/-- `InputValidator.validate_port`. -/
def validate_port (port : Int) : Except PyExc Int :=
  if port < 1 || port > 65535 then
    .error (.validationError "Port must be between 1 and 65535")
  else
    .ok port

/-- The validator that claim C5 describes in the specification words:
the emptiness / pattern / length checks applied to the lower-cased and
trimmed string (the code instead checks the raw string).  Used only to
compare the claim against `validate_name`. -/
def validate_name_specWords (name : String) : Except PyExc String :=
  let t := str_strip (str_lower name)
  if t = "" then
    .error (.validationError "Name cannot be empty")
  else if !matchesNameLang t then
    .error (.validationError "Name must be lowercase alphanumeric with hyphens only")
  else if t.length > 63 then
    .error (.validationError "Name must be 63 characters or less")
  else
    .ok t

/-! ## base64 (Python `base64.b64encode` on bytes, standard alphabet)

Bytes are `Nat`s below 256.  `b64decodeChars` is the standard decoder
used to state the round-trip property of secret payloads. -/

/-- The standard base64 alphabet. -/
def b64alphabet : List Char :=
  "ABCDEFGHIJKLMNOPQRSTUVWXYZabcdefghijklmnopqrstuvwxyz0123456789+/".toList

/-- Sextet value to base64 character. -/
def b64char (i : Nat) : Char := b64alphabet.getD i 'A'

/-- Base64 character back to its sextet value. -/
def b64index (c : Char) : Nat := b64alphabet.indexOf c

/-- `base64.b64encode`: 3-byte groups become 4 characters; a 2-byte or
1-byte remainder is padded with `=` . -/
def b64encodeBytes : List Nat → List Char
  | b1 :: b2 :: b3 :: rest =>
      b64char (b1 / 4) :: b64char ((b1 % 4) * 16 + b2 / 16) ::
      b64char ((b2 % 16) * 4 + b3 / 64) :: b64char (b3 % 64) :: b64encodeBytes rest
  | [b1, b2] =>
      [b64char (b1 / 4), b64char ((b1 % 4) * 16 + b2 / 16), b64char ((b2 % 16) * 4), '=']
  | [b1] =>
      [b64char (b1 / 4), b64char ((b1 % 4) * 16), '=', '=']
  | [] => []

/-- Standard base64 decoding (on well-formed input; junk decodes to `[]`). -/
def b64decodeChars : List Char → List Nat
  | a :: b :: c :: d :: rest =>
      if d = '=' then
        if c = '=' then
          [b64index a * 4 + b64index b / 16]
        else
          [b64index a * 4 + b64index b / 16,
           (b64index b % 16) * 16 + b64index c / 4]
      else
        (b64index a * 4 + b64index b / 16) ::
        ((b64index b % 16) * 16 + b64index c / 4) ::
        ((b64index c % 4) * 64 + b64index d) :: b64decodeChars rest
  | _ => []

/-! ## UTF-8 (Python `str.encode()`) -/

/-- UTF-8 encoding of one code point. -/
def utf8EncCodepoint (n : Nat) : List Nat :=
  if n < 128 then [n]
  else if n < 2048 then [192 + n / 64, 128 + n % 64]
  else if n < 65536 then [224 + n / 4096, 128 + (n / 64) % 64, 128 + n % 64]
  else [240 + n / 262144, 128 + (n / 4096) % 64, 128 + (n / 64) % 64, 128 + n % 64]

/-- `str.encode()`: UTF-8 bytes of a character sequence. -/
def utf8Encode : List Char → List Nat
  | [] => []
  | c :: cs => utf8EncCodepoint c.toNat ++ utf8Encode cs

/-- Decode one UTF-8 sequence from the front, returning the code point
and the remaining bytes. -/
def utf8DecodeOne : List Nat → Option (Nat × List Nat)
  | [] => none
  | b :: rest =>
    if b < 128 then some (b, rest)
    else if b < 192 then none
    else if b < 224 then
      match rest with
      | b2 :: r =>
          if 128 ≤ b2 && b2 < 192 then some ((b - 192) * 64 + (b2 - 128), r) else none
      | [] => none
    else if b < 240 then
      match rest with
      | b2 :: b3 :: r =>
          if (128 ≤ b2 && b2 < 192) && (128 ≤ b3 && b3 < 192) then
            some ((b - 224) * 4096 + (b2 - 128) * 64 + (b3 - 128), r)
          else none
      | _ => none
    else
      match rest with
      | b2 :: b3 :: b4 :: r =>
          if ((128 ≤ b2 && b2 < 192) && (128 ≤ b3 && b3 < 192)) && (128 ≤ b4 && b4 < 192) then
            some ((b - 240) * 262144 + (b2 - 128) * 4096 + (b3 - 128) * 64 + (b4 - 128), r)
          else none
      | _ => none

/-- Fuelled UTF-8 decoding loop (one unit of fuel per decoded character). -/
def utf8DecodeAux : Nat → List Nat → Option (List Char)
  | _, [] => some []
  | 0, _ :: _ => none
  | fuel + 1, b :: bs =>
    match utf8DecodeOne (b :: bs) with
    | none => none
    | some (n, rest) =>
      match utf8DecodeAux fuel rest with
      | none => none
      | some cs => some (Char.ofNat n :: cs)

/-- UTF-8 decoding of a byte sequence. -/
def utf8Decode (l : List Nat) : Option (List Char) :=
  utf8DecodeAux l.length l

/-- `base64.b64encode(v.encode()).decode()` applied to a string value, as
done for each secret value. -/
def b64encodeStr (v : String) : String :=
  String.mk (b64encodeBytes (utf8Encode v.toList))

/-! ## Manifest generators

The generators build Python dicts and return `yaml.dump(...)`.  The
dicts are modelled as the structures below; the serialized text is
modelled as a canonical deterministic rendering (`reprStr`) of the
structure, which is all the executor needs (it never inspects the
text). -/

/-- The liveness/readiness probe dicts of the deployment container. -/
structure Probe where
  path : String
  port : Int
  initialDelaySeconds : Nat
  periodSeconds : Nat
deriving Repr, DecidableEq

/-- The single container dict of the generated deployment. -/
structure ContainerSpec where
  name : String
  image : String
  containerPort : Int
  portName : String
  limits_cpu : String
  limits_memory : String
  requests_cpu : String
  requests_memory : String
  livenessProbe : Probe
  readinessProbe : Probe
  env : List (String × String)
deriving Repr, DecidableEq

/-- The deployment dict built by `generate_deployment_yaml`. -/
structure DeploymentManifest where
  apiVersion : String
  kind : String
  metadata_name : String
  metadata_namespace : String
  metadata_labels : List (String × String)
  spec_replicas : Int
  selector_matchLabels : List (String × String)
  template_labels : List (String × String)
  containers : List ContainerSpec
  restartPolicy : String
deriving Repr, DecidableEq

/-- `generate_deployment_yaml`, up to serialization: the dict passed to
`yaml.dump`. -/
def generate_deployment_manifest (name image : String) (replicas : Int)
    («namespace» : String) (port : Int) (cpu_limit memory_limit : String)
    (env_vars : List (String × String)) : DeploymentManifest :=
  { apiVersion := "apps/v1"
    kind := "Deployment"
    metadata_name := name
    metadata_namespace := «namespace»
    metadata_labels := [("app", name), ("version", "v1")]
    spec_replicas := replicas
    selector_matchLabels := [("app", name)]
    template_labels := [("app", name), ("version", "v1")]
    containers := [{
      name := name
      image := image
      containerPort := port
      portName := "http"
      limits_cpu := cpu_limit
      limits_memory := memory_limit
      requests_cpu := "100m"
      requests_memory := "128Mi"
      livenessProbe := { path := "/", port := port, initialDelaySeconds := 30, periodSeconds := 10 }
      readinessProbe := { path := "/", port := port, initialDelaySeconds := 5, periodSeconds := 5 }
      env := env_vars }]
    restartPolicy := "Always" }

/-- `generate_deployment_yaml` (serialized form). -/
def generate_deployment_yaml (name image : String) (replicas : Int)
    («namespace» : String) (port : Int) (cpu_limit memory_limit : String)
    (env_vars : List (String × String)) : String :=
  reprStr (generate_deployment_manifest name image replicas «namespace» port
    cpu_limit memory_limit env_vars)

/-- The service dict built by `generate_service_yaml`. -/
structure ServiceManifest where
  apiVersion : String
  kind : String
  metadata_name : String
  metadata_namespace : String
  metadata_labels : List (String × String)
  selector : List (String × String)
  port : Int
  targetPort : Int
  portName : String
  type : String
deriving Repr, DecidableEq

/-- `generate_service_yaml`, up to serialization. -/
def generate_service_manifest (name : String) (port target_port : Int)
    («namespace» : String) (service_type : String) : ServiceManifest :=
  { apiVersion := "v1"
    kind := "Service"
    metadata_name := name ++ "-service"
    metadata_namespace := «namespace»
    metadata_labels := [("app", name)]
    selector := [("app", name)]
    port := port
    targetPort := target_port
    portName := "http"
    type := service_type }

/-- `generate_service_yaml` (serialized form). -/
def generate_service_yaml (name : String) (port target_port : Int)
    («namespace» : String) (service_type : String) : String :=
  reprStr (generate_service_manifest name port target_port «namespace» service_type)

/-- The secret dict built by `generate_secret_yaml`: each value of the
input mapping is stored base64-encoded over its UTF-8 bytes. -/
structure SecretManifest where
  apiVersion : String
  kind : String
  metadata_name : String
  metadata_namespace : String
  metadata_labels : List (String × String)
  type : String
  data : List (String × String)
deriving Repr, DecidableEq

/-- `generate_secret_yaml`, up to serialization. -/
def generate_secret_manifest (name : String) (data : List (String × String))
    («namespace» : String) : SecretManifest :=
  { apiVersion := "v1"
    kind := "Secret"
    metadata_name := name ++ "-secret"
    metadata_namespace := «namespace»
    metadata_labels := [("app", name)]
    type := "Opaque"
    data := data.map (fun kv => (kv.1, b64encodeStr kv.2)) }

/-! ## Operation executor (`K8sOperations`)

Process effects are explicit: a `World` records the temporary manifest
files currently on disk and the trace of external `kubectl` invocations;
an `ExecEnv` oracle gives the outcome of each invocation
(`subprocess.run` completion, `TimeoutExpired`, `FileNotFoundError`, or
some other host exception). -/

/-- The dict returned by `_run_kubectl` on completion. -/
structure RunResult where
  success : Bool
  stdout : String
  stderr : String
  returncode : Int
deriving Repr, DecidableEq

/-- Possible outcomes of one `subprocess.run(cmd, ...)` invocation. -/
inductive KOut where
  | completed (returncode : Int) (stdout stderr : String)
  | timedOut
  | notFound
  | raised (msg : String)
deriving Repr, DecidableEq

/-- Behaviour of the external process boundary: outcome per command line. -/
structure ExecEnv where
  kubectl : List String → KOut

/-- Host state threaded through the executor: temporary files (path and
content) and the trace of `kubectl` command lines issued so far. -/
structure World where
  files : List (String × String) := []
  trace : List (List String) := []
  nextTmp : Nat := 0
deriving Repr, DecidableEq

/-- Path handed out by `tempfile.NamedTemporaryFile` for the next call. -/
def tmpPath (w : World) : String :=
  "/tmp/tmp" ++ toString w.nextTmp ++ ".yaml"

/-- `K8sOperations._run_kubectl`: records the invocation and converts the
outcome; timeout, missing binary and other exceptions raise
`ResourceError` with the messages of the source. -/
def run_kubectl (cfg : K8sConfig) (env : ExecEnv) (cmd : List String)
    (timeout : Option Nat) (w : World) : Except PyExc RunResult × World :=
  let t := timeout.getD cfg.timeout
  let w1 : World := { w with trace := w.trace ++ [cmd] }
  match env.kubectl cmd with
  | .completed rc out err =>
      (.ok { success := rc == 0, stdout := out, stderr := err, returncode := rc }, w1)
  | .timedOut =>
      (.error (.resourceError
        ("kubectl command timed out after " ++ toString t ++ " seconds")), w1)
  | .notFound =>
      (.error (.resourceError
        "kubectl not found. Please install kubectl and ensure it\x27s in PATH"), w1)
  | .raised m =>
      (.error (.resourceError ("Failed to run kubectl command: " ++ m)), w1)

/-- `K8sOperations.apply_yaml`: writes the manifest to a fresh temporary
file (`delete=False`), invokes `kubectl apply -f <path>` and unlinks the
file *after* `_run_kubectl` returns; an exception out of `_run_kubectl`
propagates through the outer `except` (which only logs and re-raises),
skipping the unlink. -/
def apply_yaml (cfg : K8sConfig) (env : ExecEnv) (yaml_content : String)
    (dry_run : Bool) (w : World) : Except PyExc RunResult × World :=
  let temp_file := tmpPath w
  let w1 : World := { w with files := w.files ++ [(temp_file, yaml_content)],
                             nextTmp := w.nextTmp + 1 }
  let cmd := ["kubectl", "apply", "-f", temp_file]
    ++ (if dry_run then ["--dry-run=client"] else [])
  match run_kubectl cfg env cmd none w1 with
  | (.error e, w2) => (.error e, w2)
  | (.ok result, w2) =>
    let w3 : World := { w2 with files := w2.files.filter (fun f => f.1 != temp_file) }
    if result.success then (.ok result, w3)
    else (.error (.resourceError ("Failed to apply YAML: " ++ result.stderr)), w3)

/-! ## JSON (`json.loads`)

A recursive-descent parser for the JSON grammar, with a fuel argument
bounding nesting depth.  Number literals are kept as their lexeme (their
numeric value is never used by the pipeline).  A parse failure models
`json.JSONDecodeError`. -/

/-- JSON values. -/
inductive Json where
  | null
  | jbool (b : Bool)
  | jnum (lit : String)
  | jstr (s : String)
  | jarr (items : List Json)
  | jobj (fields : List (String × Json))
deriving Repr

/-- JSON insignificant whitespace. -/
def jsonWs (c : Char) : Bool :=
  c == ' ' || c == '\t' || c == '\n' || c == '\r'

/-- Value of one hex digit, if it is one. -/
def hexVal (c : Char) : Option Nat :=
  if 48 ≤ c.toNat ∧ c.toNat ≤ 57 then some (c.toNat - 48)
  else if 97 ≤ c.toNat ∧ c.toNat ≤ 102 then some (c.toNat - 87)
  else if 65 ≤ c.toNat ∧ c.toNat ≤ 70 then some (c.toNat - 55)
  else none

/-- Parse the remainder of a string literal (after the opening quote),
accumulating decoded characters. -/
def parseStringRest (acc : List Char) : List Char → Option (String × List Char)
  | [] => none
  | '"' :: r => some (String.mk acc.reverse, r)
  | '\\' :: e :: r =>
      if e = '"' then parseStringRest ('"' :: acc) r
      else if e = '\\' then parseStringRest ('\\' :: acc) r
      else if e = '/' then parseStringRest ('/' :: acc) r
      else if e = 'b' then parseStringRest ('\x08' :: acc) r
      else if e = 'f' then parseStringRest ('\x0c' :: acc) r
      else if e = 'n' then parseStringRest ('\n' :: acc) r
      else if e = 'r' then parseStringRest ('\r' :: acc) r
      else if e = 't' then parseStringRest ('\t' :: acc) r
      else if e = 'u' then
        match r with
        | h1 :: h2 :: h3 :: h4 :: r2 =>
            match hexVal h1, hexVal h2, hexVal h3, hexVal h4 with
            | some v1, some v2, some v3, some v4 =>
                parseStringRest (Char.ofNat (v1 * 4096 + v2 * 256 + v3 * 16 + v4) :: acc) r2
            | _, _, _, _ => none
        | _ => none
      else none
  | '\\' :: [] => none
  | c :: r => if c.toNat < 32 then none else parseStringRest (c :: acc) r

/-- Lex a JSON number starting at the head, returning its lexeme. -/
def lexNumber (l : List Char) : Option (String × List Char) :=
  let (sign, l1) := match l with
    | '-' :: r => (['-'], r)
    | _ => (([] : List Char), l)
  let intPart := l1.takeWhile Char.isDigit
  let l2 := l1.dropWhile Char.isDigit
  if intPart.isEmpty then none
  else
    let (frac, l3) := match l2 with
      | '.' :: r =>
          let ds := r.takeWhile Char.isDigit
          if ds.isEmpty then (([] : List Char), l2)
          else ('.' :: ds, r.dropWhile Char.isDigit)
      | _ => (([] : List Char), l2)
    let (expPart, l4) := match l3 with
      | e :: r =>
          if e = 'e' ∨ e = 'E' then
            let (es, r1) := match r with
              | s :: r2 => if s = '+' ∨ s = '-' then ([e, s], r2) else ([e], r)
              | [] => ([e], r)
            let ds := r1.takeWhile Char.isDigit
            if ds.isEmpty then (([] : List Char), l3)
            else (es ++ ds, r1.dropWhile Char.isDigit)
          else (([] : List Char), l3)
      | [] => (([] : List Char), l3)
    some (String.mk (sign ++ intPart ++ frac ++ expPart), l4)

mutual

/-- Parse one JSON value (after the fuel, the input with leading
whitespace allowed). -/
def parseValue : Nat → List Char → Option (Json × List Char)
  | 0, _ => none
  | fuel + 1, l =>
    match l.dropWhile jsonWs with
    | 'n' :: 'u' :: 'l' :: 'l' :: r => some (.null, r)
    | 't' :: 'r' :: 'u' :: 'e' :: r => some (.jbool true, r)
    | 'f' :: 'a' :: 'l' :: 's' :: 'e' :: r => some (.jbool false, r)
    | '"' :: r =>
        match parseStringRest [] r with
        | some (s, r2) => some (.jstr s, r2)
        | none => none
    | '[' :: r =>
        (match (r.dropWhile jsonWs) with
          | ']' :: r2 => some (.jarr [], r2)
          | _ =>
            match parseElements fuel r with
            | some (items, r2) => some (.jarr items, r2)
            | none => none)
    | '{' :: r =>
        (match (r.dropWhile jsonWs) with
          | '}' :: r2 => some (.jobj [], r2)
          | _ =>
            match parseMembers fuel r with
            | some (fields, r2) => some (.jobj fields, r2)
            | none => none)
    | c :: r =>
        if c = '-' ∨ c.isDigit then
          match lexNumber (c :: r) with
          | some (lit, r2) => some (.jnum lit, r2)
          | none => none
        else none
    | [] => none

/-- Parse the comma-separated element list of a nonempty array, up to and
including the closing bracket. -/
def parseElements : Nat → List Char → Option (List Json × List Char)
  | 0, _ => none
  | fuel + 1, l =>
    match parseValue fuel l with
    | none => none
    | some (v, r) =>
      match r.dropWhile jsonWs with
      | ',' :: r2 =>
          (match parseElements fuel r2 with
            | some (vs, r3) => some (v :: vs, r3)
            | none => none)
      | ']' :: r2 => some ([v], r2)
      | _ => none

/-- Parse the comma-separated member list of a nonempty object, up to and
including the closing brace. -/
def parseMembers : Nat → List Char → Option (List (String × Json) × List Char)
  | 0, _ => none
  | fuel + 1, l =>
    match l.dropWhile jsonWs with
    | '"' :: r =>
      (match parseStringRest [] r with
        | none => none
        | some (k, r1) =>
          match r1.dropWhile jsonWs with
          | ':' :: r2 =>
            (match parseValue fuel r2 with
              | none => none
              | some (v, r3) =>
                match r3.dropWhile jsonWs with
                | ',' :: r4 =>
                    (match parseMembers fuel r4 with
                      | some (fs, r5) => some ((k, v) :: fs, r5)
                      | none => none)
                | '}' :: r4 => some ([(k, v)], r4)
                | _ => none)
          | _ => none)
    | _ => none

end

/-- `json.loads`: the whole input must be one JSON value followed only by
whitespace; anything else raises `json.JSONDecodeError`. -/
def json_loads (s : String) : Except PyExc Json :=
  match parseValue (s.toList.length + 1) s.toList with
  | some (j, rest) =>
      if (rest.dropWhile jsonWs).isEmpty then .ok j else .error .jsonDecodeError
  | none => .error .jsonDecodeError

/-- Python `d.get(key, default)`: succeeds on a dict (first binding
wins), raises `AttributeError` on any other value. -/
def pyGet (j : Json) (key : String) (default : Json) : Except PyExc Json :=
  match j with
  | .jobj fields =>
      .ok (((fields.find? (fun kv => kv.1 == key)).map (fun kv => kv.2)).getD default)
  | _ => .error .attributeError

/-- One resource summary built by `list_resources` (field values are
whatever JSON values the metadata held; the defaults are `""`). -/
structure ResourceSummary where
  name : Json
  «namespace» : Json
  age : Json
  status : Json
deriving Repr

/-- The summary dict built for one item of the `kubectl get` output. -/
def summarizeItem (item : Json) : Except PyExc ResourceSummary := do
  let metadata ← pyGet item "metadata" (.jobj [])
  let name ← pyGet metadata "name" (.jstr "")
  let ns ← pyGet metadata "namespace" (.jstr "")
  let age ← pyGet metadata "creationTimestamp" (.jstr "")
  let status ← pyGet item "status" (.jobj [])
  let phase ← pyGet status "phase" (.jstr "")
  pure { name := name, «namespace» := ns, age := age, status := phase }

/-- `K8sOperations.list_resources`: runs `kubectl get <kind> -o json`,
raises `ResourceError` on a non-zero exit, then parses the standard
output with `json.loads`.  The surrounding `except` clause only logs and
re-raises, so a `json.JSONDecodeError` from malformed output propagates
to the caller unchanged.  (Iterating a non-list `items` value is
collapsed to `TypeError`.) -/
def list_resources (cfg : K8sConfig) (env : ExecEnv) (resource_type : String)
    («namespace» : Option String) (w : World) :
    Except PyExc (List ResourceSummary) × World :=
  let cmd := ["kubectl", "get", resource_type, "-o", "json"]
    ++ (match «namespace» with | some n => ["-n", n] | none => [])
  match run_kubectl cfg env cmd none w with
  | (.error e, w1) => (.error e, w1)
  | (.ok result, w1) =>
    if !result.success then
      (.error (.resourceError
        ("Failed to list " ++ resource_type ++ ": " ++ result.stderr)), w1)
    else
      match json_loads result.stdout with
      | .error e => (.error e, w1)
      | .ok data =>
        match pyGet data "items" (.jarr []) with
        | .error e => (.error e, w1)
        | .ok (.jarr items) => (items.mapM summarizeItem, w1)
        | .ok _ => (.error .typeError, w1)

/-- `K8sOperations.scale_deployment`: validates the replica count, then
runs `kubectl scale deployment <name> --replicas=<n>`. -/
def scale_deployment (cfg : K8sConfig) (env : ExecEnv) (name : String)
    (replicas : Int) («namespace» : Option String) (w : World) :
    Except PyExc RunResult × World :=
  match validate_replicas cfg replicas with
  | .error e => (.error e, w)
  | .ok r =>
    let cmd := ["kubectl", "scale", "deployment", name, "--replicas=" ++ toString r]
      ++ (match «namespace» with | some n => ["-n", n] | none => [])
    match run_kubectl cfg env cmd none w with
    | (.error e, w1) => (.error e, w1)
    | (.ok result, w1) =>
      if !result.success then
        (.error (.resourceError
          ("Failed to scale deployment " ++ name ++ ": " ++ result.stderr)), w1)
      else (.ok result, w1)

/-! ## Dispatcher tools

`CreateDeploymentTool._run` / `CreateServiceTool._run`, modelled after
`json.loads(tool_input)` succeeded: the parsed input is a record whose
defaults are the `data.get(..., default)` fall-backs of the source (a
missing `name`, i.e. `None`, is modelled as `""`, which `validate_name`
rejects identically). -/

/-- Parsed input of `CreateDeploymentTool`. -/
structure DeployInput where
  name : String := ""
  image : String := ""
  replicas : Int := 1
  «namespace» : String := "default"
  port : Int := 80
  cpu_limit : String := "500m"
  memory_limit : String := "512Mi"
  env_vars : List (String × String) := []
deriving Repr, DecidableEq

/-- Parsed input of `CreateServiceTool`. -/
structure ServiceInput where
  name : String := ""
  port : Int := 80
  target_port : Int := 80
  «namespace» : String := "default"
  service_type : String := "ClusterIP"
deriving Repr, DecidableEq

/-- The guardrail-validation prefix of `CreateDeploymentTool._run`, in
source order. -/
def validateDeployInput (cfg : K8sConfig) (d : DeployInput) :
    Except PyExc (String × String × Int × String × Int) := do
  let name ← validate_name d.name
  let image ← validate_image cfg d.image
  let replicas ← validate_replicas cfg d.replicas
  let ns ← validate_namespace cfg d.«namespace»
  let port ← validate_port d.port
  pure (name, image, replicas, ns, port)

/-- The guardrail-validation prefix of `CreateServiceTool._run`, in
source order. -/
def validateServiceInput (cfg : K8sConfig) (s : ServiceInput) :
    Except PyExc (String × Int × Int × String) := do
  let name ← validate_name s.name
  let port ← validate_port s.port
  let target_port ← validate_port s.target_port
  let ns ← validate_namespace cfg s.«namespace»
  pure (name, port, target_port, ns)

/-- The `except` clauses of `CreateDeploymentTool._run`: each exception
class is reported as a returned string with its own prefix. -/
def deployErrString : PyExc → String
  | .validationError m => "Validation error: " ++ m
  | .securityError m => "Security error: " ++ m
  | .resourceError m => "Resource error: " ++ m
  | e => "Error: " ++ pyExcStr e

/-- `CreateDeploymentTool._run` after input parsing: validate all
parameters, generate the deployment manifest, apply it to the cluster,
and report the outcome (exceptions become the strings of the `except`
clauses). -/
def createDeploymentRun (cfg : K8sConfig) (env : ExecEnv) (d : DeployInput)
    (w : World) : String × World :=
  match validateDeployInput cfg d with
  | .error e => (deployErrString e, w)
  | .ok (name, image, replicas, ns, port) =>
    let yaml_content :=
      generate_deployment_yaml name image replicas ns port
        d.cpu_limit d.memory_limit d.env_vars
    match apply_yaml cfg env yaml_content false w with
    | (.error e, w2) => (deployErrString e, w2)
    | (.ok result, w2) => ("Deployment created: " ++ result.stdout, w2)

/-- `CreateServiceTool._run` after input parsing (its single `except`
clause reports every exception as `"Error: ..."`). -/
def createServiceRun (cfg : K8sConfig) (env : ExecEnv) (s : ServiceInput)
    (w : World) : String × World :=
  match validateServiceInput cfg s with
  | .error e => ("Error: " ++ pyExcStr e, w)
  | .ok (name, port, target_port, ns) =>
    let yaml_content := generate_service_yaml name port target_port ns s.service_type
    match apply_yaml cfg env yaml_content false w with
    | (.error e, w2) => ("Error: " ++ pyExcStr e, w2)
    | (.ok result, w2) => ("Service created: " ++ result.stdout, w2)

/-! ## Intent routing (`K8sAgent.run`)

The routing prefix of `K8sAgent.run`: which processing branch a raw
input reaches.  Every membership test of the source is a *substring*
test on the lower-cased input (`any(cmd in user_input_lower ...)`). -/

/-- The branch `K8sAgent.run` dispatches a given input to. -/
inductive Route where
  | noInput
  | help
  | status
  | deployment
  | service
  | listRes
  | scaleDep
  | logs
  | clarify
deriving Repr, DecidableEq

/-- The routing decision of `K8sAgent.run` (source order: empty check,
help keywords, status keywords, create+deployment, create+service,
list, scale, log, default clarification). -/
def agent_route (user_input : String) : Route :=
  if str_strip user_input = "" then .noInput
  else
    let low := str_lower user_input
    if containsSub low "help" || containsSub low "h" || containsSub low "?" then .help
    else if containsSub low "status" || containsSub low "info" then .status
    else if containsSub low "create" && containsSub low "deployment" then .deployment
    else if containsSub low "create" && containsSub low "service" then .service
    else if containsSub low "list" then .listRes
    else if containsSub low "scale" then .scaleDep
    else if containsSub low "log" then .logs
    else .clarify

/-- The advisory dangerous-keyword warning of `K8sAgent.run`. -/
def dangerous_warning (user_input : String) : Bool :=
  ["delete", "remove", "destroy", "kill"].any
    (fun keyword => containsSub (str_lower user_input) keyword)

/-! ## Helper lemmas -/

/-- `validate_name` succeeds exactly on strings accepted by Python
`re.match` against the name pattern whose raw length is at most 63, and
then returns the lower-cased, stripped string. -/
theorem validate_name_ok_iff (n v : String) :
    validate_name n = .ok v ↔
      (pyMatchName n = true ∧ n.length ≤ 63 ∧ v = str_strip (str_lower n)) := by
  unfold validate_name
  split_ifs with h1 h2 h3
  · subst h1
    simp only [show pyMatchName "" = false from rfl]
    simp
  · constructor
    · intro h; cases h
    · rintro ⟨hm, -, -⟩
      rw [hm] at h2
      simp at h2
  · constructor
    · intro h; cases h
    · rintro ⟨-, hl, -⟩
      omega
  · have hm : pyMatchName n = true := by simpa using h2
    constructor
    · intro h
      exact ⟨hm, by omega, (Except.ok.inj h).symm⟩
    · rintro ⟨-, -, hv⟩
      rw [hv]

/-- A string containing an ASCII uppercase letter is rejected by the name
pattern under Python `re.match`. -/
theorem pyMatchName_eq_false_of_upper (n : String)
    (h : n.toList.any (fun c => 65 ≤ c.toNat && c.toNat ≤ 90) = true) :
    pyMatchName n = false := by
  rcases List.any_eq_true.mp h with ⟨c, hc, hcu⟩
  simp only [Bool.and_eq_true, decide_eq_true_eq] at hcu
  have hchar : isNameChar c = false := by
    unfold isNameChar isNameAlnum
    have h1 : ¬(97 ≤ c.toNat) := by omega
    have h2 : ¬(c.toNat ≤ 57) := by omega
    have h3 : (c == '-') = false := by
      apply beq_eq_false_iff_ne.mpr
      intro hcon
      subst hcon
      exact absurd hcu (by decide)
    simp [h1, h2, h3]
  have hall : ∀ l : List Char, c ∈ l → matchesNameLangL l = false := by
    intro l hl
    unfold matchesNameLangL
    apply Bool.and_eq_false_iff.mpr
    right
    exact List.all_eq_false.mpr ⟨c, hl, by simp [hchar]⟩
  unfold pyMatchName
  apply Bool.or_eq_false_iff.mpr
  refine ⟨hall _ hc, ?_⟩
  apply Bool.and_eq_false_iff.mpr
  by_cases hlast : n.toList.getLastD ' ' = '\n'
  · right
    apply hall
    have hne : n.toList ≠ [] := by
      intro hnil; rw [hnil] at hc; cases hc
    have hdecomp := List.dropLast_append_getLast hne
    have hc2 : c ∈ n.toList.dropLast ++ [n.toList.getLast hne] := by
      rw [hdecomp]; exact hc
    rcases List.mem_append.mp hc2 with h' | h'
    · exact h'
    · exfalso
      have hceq : c = n.toList.getLast hne := List.mem_singleton.mp h'
      have hgl : n.toList.getLastD ' ' = n.toList.getLast hne := by
        rw [List.getLastD_eq_getLast?, List.getLast?_eq_getLast _ hne]
        rfl
      have hcn : c = '\n' := by rw [hceq, ← hgl, hlast]
      rw [hcn] at hcu
      exact absurd hcu (by decide)
  · left
    simp only [beq_eq_false_iff_ne, ne_eq]
    exact hlast

/-! ## Claim theorems -/

/-- C1 (code bug): the input
"Create a deployment named api with nginx image and 3 replicas" never
reaches deployment processing.  The help shortcut of `K8sAgent.run`
tests *substring* containment of `"h"` in the lower-cased input
(`any(cmd in user_input_lower for cmd in ["help", "h", "?"])`), and the
word "with" contains `h`, so the agent displays help and returns
"Help displayed" instead of resolving a CreateDeployment operation.
(The interactive loop in `main` and the agent's own help text show the
intent: there, `help`/`h` are matched by exact equality.) -/
theorem C1_help_shortcut_intercepts_deployment_request :
    agent_route "Create a deployment named api with nginx image and 3 replicas"
      = Route.help ∧ Route.help ≠ Route.deployment := by
  exact ⟨rfl, by decide⟩

/-- C10 (code bug): `validate_namespace` can succeed and return a
namespace that *is* in the configured forbidden set.  The forbidden-set
test is exact match on the raw input, the name pattern under Python
`re.match` tolerates one trailing newline, and the returned value is the
input lower-cased and stripped: so the input "kube-system\n" passes both
checks and the stripped result "kube-system" is forbidden. -/
theorem C10_forbidden_namespace_bypass :
    validate_namespace defaultConfig "kube-system\n" = .ok "kube-system" ∧
      defaultConfig.forbidden_namespaces.contains "kube-system" = true := by
  exact ⟨rfl, rfl⟩

/-- C4 counterexample: "KUBE-SYSTEM" differs from the forbidden
"kube-system" only in letter case, but `validate_namespace` rejects it
with the `InvalidName` validation error ("Name must be lowercase
alphanumeric with hyphens only"), not with the `ForbiddenNamespace`
security error: the forbidden-set membership test is exact match on the
raw string and never case-normalizes. -/
theorem C4_counterexample_case_variant_gives_invalid_name :
    validate_namespace defaultConfig "KUBE-SYSTEM"
        = .error (.validationError "Name must be lowercase alphanumeric with hyphens only") ∧
      str_lower "KUBE-SYSTEM" = "kube-system" ∧
      defaultConfig.forbidden_namespaces.contains "kube-system" = true := by
  exact ⟨rfl, rfl, rfl⟩

/-- C4 (amended): after empty-input default substitution, a namespace
that is *exactly* a member of the forbidden set fails with the
`ForbiddenNamespace` security error; a namespace outside the forbidden
set that contains an ASCII uppercase letter (in particular every proper
case variant of a forbidden namespace) instead fails with the
`InvalidName` format error from the name re-validation. -/
theorem C4_amended_forbidden_exact_match_only (cfg : K8sConfig) (ns : String) :
    (cfg.forbidden_namespaces.contains (if ns = "" then cfg.«namespace» else ns) = true →
      validate_namespace cfg ns = .error (.securityError
        ("Namespace \x27" ++ (if ns = "" then cfg.«namespace» else ns) ++ "\x27 is forbidden")))
    ∧ (cfg.forbidden_namespaces.contains ns = false →
        ns.toList.any (fun c => 65 ≤ c.toNat && c.toNat ≤ 90) = true →
        validate_namespace cfg ns
          = .error (.validationError "Name must be lowercase alphanumeric with hyphens only")) := by
  constructor
  · intro h
    unfold validate_namespace
    simp only [h, if_true]
  · intro hc hu
    have hne : ns ≠ "" := by
      intro h0
      subst h0
      simp at hu
    unfold validate_namespace
    simp only [if_neg hne, hc, if_false, Bool.false_eq_true]
    unfold validate_name
    simp only [if_neg hne, pyMatchName_eq_false_of_upper ns hu]
    rfl

/-- C4 witness: the exactly-forbidden namespace "kube-public" is rejected
with the security error. -/
theorem C4_amended_forbidden_exact_match_only_witness :
    validate_namespace defaultConfig "kube-public"
      = .error (.securityError "Namespace \x27kube-public\x27 is forbidden") :=
  (C4_amended_forbidden_exact_match_only defaultConfig "kube-public").1 rfl

/-- C5 counterexample: the claim says the checks run on the lower-cased,
trimmed string, under which "API" would be accepted (as "api"); the code
checks the raw string, so `validate_name "API"` fails with the format
error while the claim-described validator accepts it. -/
theorem C5_counterexample_checks_run_on_raw_string :
    validate_name "API"
        = .error (.validationError "Name must be lowercase alphanumeric with hyphens only") ∧
      validate_name_specWords "API" = .ok "api" := by
  exact ⟨rfl, rfl⟩

/-- C5 (amended): the emptiness, pattern, and length checks of
`validate_name` apply to the *raw* string (under Python `re.match`
semantics, which also accept one trailing newline before the anchored
end); only the returned value is lower-cased and stripped. -/
theorem C5_amended_validate_name_raw_characterization (n v : String) :
    validate_name n = .ok v ↔
      (pyMatchName n = true ∧ n.length ≤ 63 ∧ v = str_strip (str_lower n)) :=
  validate_name_ok_iff n v

/-- C5 witness: a well-formed name is accepted and returned. -/
theorem C5_amended_validate_name_raw_characterization_witness :
    validate_name "web-app" = .ok "web-app" :=
  (C5_amended_validate_name_raw_characterization "web-app" "web-app").mpr
    ⟨rfl, by decide, rfl⟩

/-- C6 counterexample: "api\n" is not in the regular language of
the name pattern (no member contains a newline) and has length at most
63, yet `validate_name` accepts it: Python `re.match` lets the `$`
anchor match just before one trailing newline, so the claimed
"succeeds iff the string matches the pattern" equivalence fails. -/
theorem C6_counterexample_trailing_newline_accepted :
    validate_name "api\n" = .ok "api" ∧
      matchesNameLang "api\n" = false ∧
      "api\n".length ≤ 63 := by
  exact ⟨rfl, rfl, by decide⟩

/-- C6 (amended): `validate_name n` succeeds iff `n` matches the name
pattern under Python `re.match` semantics — i.e. `n`, or `n` minus a
single trailing newline, lies in the pattern language — and the raw
length of `n` is at most 63. -/
theorem C6_amended_success_iff_python_match (n : String) :
    (∃ v, validate_name n = .ok v) ↔ (pyMatchName n = true ∧ n.length ≤ 63) := by
  constructor
  · rintro ⟨v, hv⟩
    have h := (validate_name_ok_iff n v).mp hv
    exact ⟨h.1, h.2.1⟩
  · rintro ⟨hm, hl⟩
    exact ⟨_, (validate_name_ok_iff n _).mpr ⟨hm, hl, rfl⟩⟩

/-- C6 witness: "api-1" is accepted. -/
theorem C6_amended_success_iff_python_match_witness :
    ∃ v, validate_name "api-1" = .ok v :=
  (C6_amended_success_iff_python_match "api-1").mpr ⟨rfl, by decide⟩

/-- C7 (confirmed): when any guardrail validation of the tool input
fails (`InvalidName`, `InvalidImage`, `InvalidReplicas`,
`ForbiddenNamespace`, `InvalidPort`), `CreateDeploymentTool._run` and
`CreateServiceTool._run` return the corresponding error report and leave
the world *unchanged*: in particular no `kubectl` invocation is recorded
in the trace and no temporary manifest file is created — the validations
run strictly before `apply_yaml`. -/
theorem C7_guardrail_failure_no_cluster_call (cfg : K8sConfig) (env : ExecEnv)
    (w : World) (e : PyExc) :
    (∀ d : DeployInput, validateDeployInput cfg d = .error e →
       createDeploymentRun cfg env d w = (deployErrString e, w))
    ∧ (∀ s : ServiceInput, validateServiceInput cfg s = .error e →
       createServiceRun cfg env s w = ("Error: " ++ pyExcStr e, w)) := by
  constructor
  · intro d h
    unfold createDeploymentRun
    rw [h]
  · intro s h
    unfold createServiceRun
    rw [h]

/-- C7 witness: an invalid name aborts both tools with the validation
error and no cluster interaction. -/
theorem C7_guardrail_failure_no_cluster_call_witness :
    createDeploymentRun defaultConfig ⟨fun _ => .completed 0 "" ""⟩
        { name := "BAD", image := "nginx" } {}
      = (deployErrString
          (.validationError "Name must be lowercase alphanumeric with hyphens only"), {}) ∧
    createServiceRun defaultConfig ⟨fun _ => .completed 0 "" ""⟩ { name := "BAD" } {}
      = ("Error: " ++ pyExcStr
          (.validationError "Name must be lowercase alphanumeric with hyphens only"), {}) := by
  constructor
  · exact (C7_guardrail_failure_no_cluster_call defaultConfig _ _ _).1 _ rfl
  · exact (C7_guardrail_failure_no_cluster_call defaultConfig _ _ _).2 _ rfl

/-- C9 (confirmed): with an *empty* (not unset) allowed-image list, the
truthiness test `if self.config.allowed_images and ...` skips the
allow-list containment check entirely, so `validate_image` reduces to
the emptiness and format checks alone and accepts every non-empty image
matching the repo[:tag] pattern. -/
theorem C9_empty_allow_list_disables_check (cfg : K8sConfig)
    (h : cfg.allowed_images = []) (image : String) :
    validate_image cfg image =
      (if image = "" then .error (.validationError "Image cannot be empty")
       else if !pyMatchImage image then .error (.validationError "Invalid image format")
       else .ok (str_strip image)) := by
  unfold validate_image
  rw [h]
  rfl

/-- C9 witness: an image outside the default allow-list is accepted under
the empty-list configuration. -/
theorem C9_empty_allow_list_disables_check_witness :
    validate_image { defaultConfig with allowed_images := [] } "myregistry.io/custom:v1"
      = .ok "myregistry.io/custom:v1" :=
  (C9_empty_allow_list_disables_check { defaultConfig with allowed_images := [] }
    rfl "myregistry.io/custom:v1").trans (by rfl)

/-- C2 counterexample: with an executor whose invocation times out,
`apply_yaml` fails with the timeout `ResourceError`, but the temporary
manifest file written for the call is still on disk afterwards: the
`os.unlink` sits after the `_run_kubectl` call inside the `try` block,
and the `TimeoutExpired`-induced exception jumps straight to the outer
`except`, which only logs and re-raises. -/
theorem C2_counterexample_timeout_leaves_temp_file :
    (apply_yaml defaultConfig ⟨fun _ => .timedOut⟩ "kind: Deployment" false {}).1
        = .error (.resourceError "kubectl command timed out after 30 seconds") ∧
      (apply_yaml defaultConfig ⟨fun _ => .timedOut⟩ "kind: Deployment" false {}).2.files
        = [("/tmp/tmp0.yaml", "kind: Deployment")] := by
  exact ⟨rfl, rfl⟩

/-- C2 (amended): the temporary manifest file is removed whenever the
`kubectl` invocation *returns* (exit code zero or not — both the success
return and the `ResourceError` raised for a failed apply happen after the
unlink); but when the invocation raises — e.g. exceeds the configured
timeout — the call fails with `OperationTimeout` (`ResourceError`
"kubectl command timed out ...") and the temporary file still exists. -/
theorem C2_amended_temp_file_cleanup (cfg : K8sConfig) (env : ExecEnv)
    (yaml_content : String) (dry_run : Bool) (w : World)
    (hfresh : ∀ f ∈ w.files, f.1 ≠ tmpPath w) :
    (∀ rc out err,
        env.kubectl (["kubectl", "apply", "-f", tmpPath w]
          ++ (if dry_run then ["--dry-run=client"] else [])) = .completed rc out err →
        (apply_yaml cfg env yaml_content dry_run w).2.files = w.files)
    ∧ (env.kubectl (["kubectl", "apply", "-f", tmpPath w]
          ++ (if dry_run then ["--dry-run=client"] else [])) = .timedOut →
        (apply_yaml cfg env yaml_content dry_run w).1
            = .error (.resourceError
                ("kubectl command timed out after " ++ toString cfg.timeout ++ " seconds"))
          ∧ (apply_yaml cfg env yaml_content dry_run w).2.files
            = w.files ++ [(tmpPath w, yaml_content)]) := by
  have hfilter : (w.files ++ [(tmpPath w, yaml_content)]).filter
      (fun f => f.1 != tmpPath w) = w.files := by
    rw [List.filter_append]
    have h1 : w.files.filter (fun f => f.1 != tmpPath w) = w.files :=
      List.filter_eq_self.mpr (fun f hf => by simpa [bne_iff_ne] using hfresh f hf)
    have h2 : [(tmpPath w, yaml_content)].filter (fun f => f.1 != tmpPath w) = [] := by
      simp
    rw [h1, h2, List.append_nil]
  constructor
  · intro rc out err hk
    unfold apply_yaml run_kubectl
    simp only [hk]
    split
    · exact hfilter
    · exact hfilter
  · intro hk
    unfold apply_yaml run_kubectl
    simp only [hk]
    exact ⟨rfl, trivial⟩

/-- C2 witness: with a completing executor and an empty world, the
temporary file is gone afterwards. -/
theorem C2_amended_temp_file_cleanup_witness :
    (apply_yaml defaultConfig ⟨fun _ => .completed 0 "applied" ""⟩ "kind: Pod" false {}).2.files
      = ({} : World).files :=
  (C2_amended_temp_file_cleanup defaultConfig ⟨fun _ => .completed 0 "applied" ""⟩
    "kind: Pod" false {} (by intro f hf; cases hf)).1 0 "applied" "" rfl

/-- C3 counterexample: with the tool returning exit code 0 and the
non-JSON standard output "not json", `list_resources` fails with the raw
`json.JSONDecodeError` — the `except` clause logs and re-raises the parse
exception unchanged; no `MalformedResponse`-classified error exists in
the code. -/
theorem C3_counterexample_raw_parse_error_propagates :
    (list_resources defaultConfig ⟨fun _ => .completed 0 "not json" ""⟩ "pods" none {}).1
      = .error .jsonDecodeError := by
  exact rfl

/-- C3 (amended): for every tool response that completes with exit code 0
but a standard output `json.loads` rejects, `list_resources` propagates
the raw `json.JSONDecodeError` to its caller (it is logged, not
converted into any classified `ResourceError`). -/
theorem C3_amended_malformed_output_raises_raw_json_error (cfg : K8sConfig)
    (env : ExecEnv) (resource_type : String) (ns : Option String) (w : World)
    (out err : String)
    (hk : env.kubectl (["kubectl", "get", resource_type, "-o", "json"]
        ++ (match ns with | some n => ["-n", n] | none => [])) = .completed 0 out err)
    (hj : json_loads out = .error .jsonDecodeError) :
    (list_resources cfg env resource_type ns w).1 = .error .jsonDecodeError := by
  unfold list_resources run_kubectl
  simp only [hk, hj]
  rfl

/-- C3 witness: a truncated JSON document consisting of one opening
brace makes the raw parse error escape `list_resources`. -/
theorem C3_amended_malformed_output_raises_raw_json_error_witness :
    (list_resources defaultConfig ⟨fun _ => .completed 0 "\x7b" ""⟩ "pods" none {}).1
      = .error .jsonDecodeError :=
  C3_amended_malformed_output_raises_raw_json_error defaultConfig
    ⟨fun _ => .completed 0 "\x7b" ""⟩ "pods" none {} "\x7b" "" rfl rfl

/-! ## base64 and UTF-8 round-trip lemmas (for C8) -/

/-- Decoding inverts the encoding table. -/
theorem b64index_b64char : ∀ i < 64, b64index (b64char i) = i := by decide

/-- No alphabet character is the padding character. -/
theorem b64char_ne_pad : ∀ i < 64, b64char i ≠ '=' := by decide

/-- Base64 decoding inverts base64 encoding on byte sequences. -/
theorem b64_roundtrip (l : List Nat) (h : ∀ b ∈ l, b < 256) :
    b64decodeChars (b64encodeBytes l) = l := by
  match l with
  | [] => rfl
  | [b1] =>
    have hb1 : b1 < 256 := h b1 (by simp)
    have h1 : b64index (b64char (b1 / 4)) = b1 / 4 := b64index_b64char _ (by omega)
    have h2 : b64index (b64char ((b1 % 4) * 16)) = (b1 % 4) * 16 :=
      b64index_b64char _ (by omega)
    show b64decodeChars [b64char (b1 / 4), b64char ((b1 % 4) * 16), '=', '='] = [b1]
    unfold b64decodeChars
    rw [if_pos rfl, if_pos rfl, h1, h2]
    simp only [List.cons.injEq, and_true]
    omega
  | [b1, b2] =>
    have hb1 : b1 < 256 := h b1 (by simp)
    have hb2 : b2 < 256 := h b2 (by simp)
    have h1 : b64index (b64char (b1 / 4)) = b1 / 4 := b64index_b64char _ (by omega)
    have h2 : b64index (b64char ((b1 % 4) * 16 + b2 / 16)) = (b1 % 4) * 16 + b2 / 16 :=
      b64index_b64char _ (by omega)
    have h3 : b64index (b64char ((b2 % 16) * 4)) = (b2 % 16) * 4 :=
      b64index_b64char _ (by omega)
    show b64decodeChars
        [b64char (b1 / 4), b64char ((b1 % 4) * 16 + b2 / 16), b64char ((b2 % 16) * 4), '=']
      = [b1, b2]
    unfold b64decodeChars
    rw [if_pos rfl, if_neg (b64char_ne_pad _ (by omega)), h1, h2, h3]
    simp only [List.cons.injEq, and_true]
    constructor
    · omega
    · omega
  | b1 :: b2 :: b3 :: rest =>
    have hb1 : b1 < 256 := h b1 (by simp)
    have hb2 : b2 < 256 := h b2 (by simp)
    have hb3 : b3 < 256 := h b3 (by simp)
    have ih := b64_roundtrip rest (fun b hb => h b (by simp [hb]))
    have h1 : b64index (b64char (b1 / 4)) = b1 / 4 := b64index_b64char _ (by omega)
    have h2 : b64index (b64char ((b1 % 4) * 16 + b2 / 16)) = (b1 % 4) * 16 + b2 / 16 :=
      b64index_b64char _ (by omega)
    have h3 : b64index (b64char ((b2 % 16) * 4 + b3 / 64)) = (b2 % 16) * 4 + b3 / 64 :=
      b64index_b64char _ (by omega)
    have h4 : b64index (b64char (b3 % 64)) = b3 % 64 := b64index_b64char _ (by omega)
    show b64decodeChars
        (b64char (b1 / 4) :: b64char ((b1 % 4) * 16 + b2 / 16) ::
         b64char ((b2 % 16) * 4 + b3 / 64) :: b64char (b3 % 64) :: b64encodeBytes rest)
      = b1 :: b2 :: b3 :: rest
    unfold b64decodeChars
    rw [if_neg (b64char_ne_pad _ (by omega)), h1, h2, h3, h4, ih]
    simp only [List.cons.injEq, and_true]
    refine ⟨by omega, by omega, by omega⟩

/-- Every code point of a character is below 0x110000. -/
theorem char_toNat_lt (c : Char) : c.toNat < 1114112 := by
  rcases c.valid with h | h
  · exact Nat.lt_trans h (by norm_num)
  · exact h.2

/-- UTF-8 encodings consist of bytes. -/
theorem utf8Encode_lt (cs : List Char) : ∀ b ∈ utf8Encode cs, b < 256 := by
  induction cs with
  | nil => intro b hb; cases hb
  | cons c cs ih =>
    intro b hb
    rcases List.mem_append.mp hb with hb' | hb'
    · have hv := char_toNat_lt c
      unfold utf8EncCodepoint at hb'
      split_ifs at hb' with h1 h2 h3 <;>
        simp only [List.mem_cons, List.not_mem_nil, or_false] at hb' <;> omega
    · exact ih b hb'

/-- UTF-8 encoding of a code point is never empty. -/
theorem utf8EncCodepoint_ne_nil (n : Nat) : utf8EncCodepoint n ≠ [] := by
  unfold utf8EncCodepoint
  split_ifs <;> simp

/-- Decoding one UTF-8 sequence from an encoded character recovers its
code point and the remaining bytes. -/
theorem utf8DecodeOne_enc (c : Char) (rest : List Nat) :
    utf8DecodeOne (utf8EncCodepoint c.toNat ++ rest) = some (c.toNat, rest) := by
  have hv : c.toNat < 1114112 := char_toNat_lt c
  unfold utf8EncCodepoint
  split_ifs with h1 h2 h3
  · show utf8DecodeOne (c.toNat :: rest) = some (c.toNat, rest)
    simp only [utf8DecodeOne]
    rw [if_pos (by omega)]
  · show utf8DecodeOne ((192 + c.toNat / 64) :: (128 + c.toNat % 64) :: rest)
      = some (c.toNat, rest)
    simp only [utf8DecodeOne]
    rw [if_neg (by omega), if_neg (by omega), if_pos (by omega),
      if_pos (by simp only [Bool.and_eq_true, decide_eq_true_eq]; omega)]
    simp only [Option.some.injEq, Prod.mk.injEq, and_true]
    omega
  · show utf8DecodeOne
        ((224 + c.toNat / 4096) :: (128 + c.toNat / 64 % 64) :: (128 + c.toNat % 64) :: rest)
      = some (c.toNat, rest)
    simp only [utf8DecodeOne]
    rw [if_neg (by omega), if_neg (by omega), if_neg (by omega), if_pos (by omega),
      if_pos (by simp only [Bool.and_eq_true, decide_eq_true_eq]; omega)]
    simp only [Option.some.injEq, Prod.mk.injEq, and_true]
    omega
  · show utf8DecodeOne
        ((240 + c.toNat / 262144) :: (128 + c.toNat / 4096 % 64) ::
         (128 + c.toNat / 64 % 64) :: (128 + c.toNat % 64) :: rest)
      = some (c.toNat, rest)
    simp only [utf8DecodeOne]
    rw [if_neg (by omega), if_neg (by omega), if_neg (by omega), if_neg (by omega),
      if_pos (by simp only [Bool.and_eq_true, decide_eq_true_eq]; omega)]
    simp only [Option.some.injEq, Prod.mk.injEq, and_true]
    omega

/-- A byte sequence encodes at least one byte per character. -/
theorem utf8Encode_length_ge (cs : List Char) : cs.length ≤ (utf8Encode cs).length := by
  induction cs with
  | nil => simp [utf8Encode]
  | cons c cs ih =>
    show cs.length + 1 ≤ (utf8EncCodepoint c.toNat ++ utf8Encode cs).length
    rw [List.length_append]
    have : 1 ≤ (utf8EncCodepoint c.toNat).length := by
      rcases henc : utf8EncCodepoint c.toNat with _ | ⟨b, bs⟩
      · exact absurd henc (utf8EncCodepoint_ne_nil c.toNat)
      · simp
    omega

/-- The fuelled UTF-8 decoding loop inverts encoding given enough fuel. -/
theorem utf8DecodeAux_enc (cs : List Char) :
    ∀ fuel, cs.length ≤ fuel → utf8DecodeAux fuel (utf8Encode cs) = some cs := by
  induction cs with
  | nil =>
    intro fuel _
    cases fuel <;> rfl
  | cons c cs ih =>
    intro fuel hf
    rcases fuel with _ | fuel
    · exact absurd hf (by simp)
    · rcases henc : utf8EncCodepoint c.toNat with _ | ⟨b, bs⟩
      · exact absurd henc (utf8EncCodepoint_ne_nil c.toNat)
      · have hdec : utf8DecodeOne (b :: (bs ++ utf8Encode cs))
            = some (c.toNat, utf8Encode cs) := by
          have h := utf8DecodeOne_enc c (utf8Encode cs)
          rw [henc] at h
          simpa using h
        show utf8DecodeAux (fuel + 1) (utf8EncCodepoint c.toNat ++ utf8Encode cs)
          = some (c :: cs)
        rw [henc]
        show utf8DecodeAux (fuel + 1) (b :: (bs ++ utf8Encode cs)) = some (c :: cs)
        simp only [utf8DecodeAux, hdec, ih fuel (by simp at hf; omega), Char.ofNat_toNat]

/-- UTF-8 decoding inverts UTF-8 encoding. -/
theorem utf8_roundtrip (cs : List Char) : utf8Decode (utf8Encode cs) = some cs :=
  utf8DecodeAux_enc cs _ (utf8Encode_length_ge cs)

/-- C8 (confirmed): the data section of a generated secret manifest holds,
in order and under the same keys, the base64 encoding of each input
value's UTF-8 bytes, and base64-decoding followed by UTF-8 decoding
recovers every original input value exactly. -/
theorem C8_secret_payload_roundtrip (name ns : String) (data : List (String × String)) :
    (generate_secret_manifest name data ns).data
        = data.map (fun kv => (kv.1, b64encodeStr kv.2)) ∧
      ∀ v : String, utf8Decode (b64decodeChars (b64encodeStr v).toList) = some v.toList := by
  refine ⟨rfl, ?_⟩
  intro v
  have hb : b64decodeChars (b64encodeStr v).toList = utf8Encode v.toList :=
    b64_roundtrip (utf8Encode v.toList) (utf8Encode_lt v.toList)
  rw [hb]
  exact utf8_roundtrip v.toList

end K8s
